import Mathlib

/-!
Verification development for the Agentic-AI-With-MCP repository.

The development shallowly embeds the two services of the repository:

* mcp-service: the tool server (mcp_server.py) and its calculator backend
  (services/calculator.py).  Tool handlers are embedded as pure functions
  parameterised by their collaborators (the JWT validator and the wrapped
  backend service), so that theorems can state that a handler answers
  before consulting a collaborator.

* agent-service: the supervisor workflow (services/agent_service.py).  The
  nodes of the LangGraph workflow are embedded as pure functions from the
  shared state to a partial state update; the graph wiring of _create_graph
  and the step-bounded driver of graph.ainvoke are embedded as an explicit
  transition function and a fuel-bounded execution loop.  Collaborators
  that live outside the repository (the language model, the human at the
  console, the remote tools) are gathered into an Env record of oracles.
-/

/-! ## mcp-service: services/calculator.py -/

namespace CalculatorService

/-- Embedding of CalculatorService.add.  Python floats are modelled as
rationals; the arithmetic of every claim is exact. -/
def add (a b : ℚ) : ℚ := a + b

/-- Embedding of CalculatorService.subtract. -/
def subtract (a b : ℚ) : ℚ := a - b

/-- Embedding of CalculatorService.multiply. -/
def multiply (a b : ℚ) : ℚ := a * b

/-- Embedding of CalculatorService.divide: raises ValueError on a zero
divisor, otherwise returns the quotient. -/
def divide (a b : ℚ) : Except String ℚ :=
  if b = 0 then .error "Cannot divide by zero." else .ok (a / b)

/-- Embedding of CalculatorService.Average: raises ValueError on an empty
list, otherwise returns sum over length. -/
def Average (numbers : List ℚ) : Except String ℚ :=
  if numbers = [] then .error "The list of numbers is empty."
  else .ok (numbers.sum / numbers.length)

end CalculatorService

/-! ## mcp-service: mcp_server.py -/

namespace mcp_server

/-- A transport-metadata dictionary, as the headers keyword argument of the
tool handlers: an association list of header names to values. -/
def Headers := List (String × String)

/-- Embedding of fastapi.HTTPException as raised by the tool handlers. -/
structure HttpError where
  status_code : Nat
  detail : String
deriving DecidableEq, Repr

/-- The user record returned by AuthService.get_current_user. -/
structure User where
  username : String
deriving DecidableEq, Repr

/-- The headers argument defaults to None; getting Authorization mirrors
the line: auth_header = headers.get("Authorization") if headers else None. -/
def authHeaderOf (headers : Option Headers) : Option String :=
  match headers with
  | none => none
  | some hs => hs.lookup "Authorization"

/-- Mirrors token = auth_header.split(" ")[1]. -/
def splitToken (h : String) : String :=
  (h.splitOn " ").getD 1 ""

/-- Embedding of the add tool handler: check for a Bearer Authorization
header, validate the token with the auth service, then call the
calculator.  getCU embeds auth_service.get_current_user and svc embeds
calculator_service.add; both are parameters so a theorem can show that the
handler answers 401 without consulting either. -/
def add (getCU : String → Except HttpError User) (svc : ℚ → ℚ → ℚ)
    (a b : ℚ) (headers : Option Headers) : Except HttpError ℚ :=
  match authHeaderOf headers with
  | none => .error ⟨401, "Token required"⟩
  | some h =>
    if h.startsWith "Bearer " then
      match getCU (splitToken h) with
      | .error e => .error e
      | .ok _ => .ok (svc a b)
    else .error ⟨401, "Token required"⟩

/-- Embedding of the subtract tool handler; same shape as add. -/
def subtract (getCU : String → Except HttpError User) (svc : ℚ → ℚ → ℚ)
    (a b : ℚ) (headers : Option Headers) : Except HttpError ℚ :=
  match authHeaderOf headers with
  | none => .error ⟨401, "Token required"⟩
  | some h =>
    if h.startsWith "Bearer " then
      match getCU (splitToken h) with
      | .error e => .error e
      | .ok _ => .ok (svc a b)
    else .error ⟨401, "Token required"⟩

/-- Embedding of the multiply tool handler; same shape as add. -/
def multiply (getCU : String → Except HttpError User) (svc : ℚ → ℚ → ℚ)
    (a b : ℚ) (headers : Option Headers) : Except HttpError ℚ :=
  match authHeaderOf headers with
  | none => .error ⟨401, "Token required"⟩
  | some h =>
    if h.startsWith "Bearer " then
      match getCU (splitToken h) with
      | .error e => .error e
      | .ok _ => .ok (svc a b)
    else .error ⟨401, "Token required"⟩

/-- Embedding of the divide tool handler; the backend itself may fail
(division by zero), so svc returns Except and its failure is surfaced. -/
def divide (getCU : String → Except HttpError User)
    (svc : ℚ → ℚ → Except String ℚ)
    (a b : ℚ) (headers : Option Headers) : Except HttpError ℚ :=
  match authHeaderOf headers with
  | none => .error ⟨401, "Token required"⟩
  | some h =>
    if h.startsWith "Bearer " then
      match getCU (splitToken h) with
      | .error e => .error e
      | .ok _ =>
        match svc a b with
        | .error m => .error ⟨500, m⟩
        | .ok v => .ok v
    else .error ⟨401, "Token required"⟩

/-- Embedding of the average tool handler. -/
def average (getCU : String → Except HttpError User)
    (svc : List ℚ → Except String ℚ)
    (numbers : List ℚ) (headers : Option Headers) : Except HttpError ℚ :=
  match authHeaderOf headers with
  | none => .error ⟨401, "Token required"⟩
  | some h =>
    if h.startsWith "Bearer " then
      match getCU (splitToken h) with
      | .error e => .error e
      | .ok _ =>
        match svc numbers with
        | .error m => .error ⟨500, m⟩
        | .ok v => .ok v
    else .error ⟨401, "Token required"⟩

/-- Embedding of the wiki_crawler tool handler; svc embeds
wiki_service.get_company_info_wikipedia. -/
def wiki_crawler (getCU : String → Except HttpError User)
    (svc : String → String)
    (company_name : String) (headers : Option Headers) :
    Except HttpError String :=
  match authHeaderOf headers with
  | none => .error ⟨401, "Token required"⟩
  | some h =>
    if h.startsWith "Bearer " then
      match getCU (splitToken h) with
      | .error e => .error e
      | .ok _ => .ok (svc company_name)
    else .error ⟨401, "Token required"⟩

/-- Embedding of the logout tool handler. -/
def logout (getCU : String → Except HttpError User)
    (headers : Option Headers) : Except HttpError String :=
  match authHeaderOf headers with
  | none => .error ⟨401, "Token required"⟩
  | some h =>
    if h.startsWith "Bearer " then
      match getCU (splitToken h) with
      | .error e => .error e
      | .ok u => .ok ("User " ++ u.username ++ " successfully logged out")
    else .error ⟨401, "Token required"⟩

/-- True when the call carries an Authorization header beginning with
"Bearer ". -/
def hasBearerAuth (headers : Option Headers) : Bool :=
  match authHeaderOf headers with
  | none => false
  | some h => h.startsWith "Bearer "

end mcp_server

/-! ## agent-service: the authenticated tool wrapper
(AgentService.wrap_authenticated_tool) -/

/-- The named inputs of one tool invocation together with the optional
headers entry that the authenticated wrapper writes into them. -/
structure ToolInput where
  args : List (String × String)
  headers : Option (List (String × String)) := none
deriving DecidableEq, Repr

/-- A Python truthiness test on an optional string, as used on the stored
access token: None and the empty string are falsy. -/
def truthy : Option String → Bool
  | none => false
  | some s => !(s == "")

/-- The auth-exempt list math_tool_names of wrap_authenticated_tool. -/
def mathToolNames : List String :=
  ["add", "subtract", "multiply", "divide", "average"]

/-- What the wrapper does with one invocation: either the underlying
mcp_tool.ainvoke is reached with the given input, or the wrapper fails
first and the underlying tool is called zero times. -/
inductive WrapOutcome where
  | invoked (input : ToolInput)
  | failed (msg : String)
deriving DecidableEq, Repr

/-- The input after the wrapper has attached the bearer credential:
tool_input["headers"] = Authorization Bearer token. -/
def withBearer (input : ToolInput) (t : String) : ToolInput :=
  { input with headers := some [("Authorization", "Bearer " ++ t)] }

/-- Embedding of AgentService.wrap_authenticated_tool, as the call the
produced StructuredTool makes to the underlying tool.  For a name in
math_tool_names the wrapper is _invoke_math: it passes tool_input through
untouched and never reads the token.  Otherwise it is _invoke: it reads
the token getter, raises ValueError when the token is falsy, and else
attaches the Bearer header before invoking. -/
def wrap_authenticated_tool (name : String) (token : Option String)
    (input : ToolInput) : WrapOutcome :=
  if name ∈ mathToolNames then
    .invoked input
  else
    match token with
    | none => .failed "No access token available for tool call"
    | some t =>
      if t = "" then .failed "No access token available for tool call"
      else .invoked (withBearer input t)

/-- Running the wrapped tool against a concrete underlying implementation:
the wrapper result is the underlying result unchanged whenever the
underlying tool is reached. -/
def wrap_run (underlying : ToolInput → Except String String)
    (name : String) (token : Option String) (input : ToolInput) :
    Except String String :=
  match wrap_authenticated_tool name token input with
  | .failed m => .error m
  | .invoked i => underlying i

/-! ## agent-service: the workflow state and nodes
(services/agent_service.py) -/

/-- A message of the conversation state, tagged with its role. -/
inductive Msg where
  | human (content : String)
  | ai (content : String)
  | system (content : String)
deriving DecidableEq, Repr

/-- Embedding of the State TypedDict.  The next key is absent until a node
writes it; the empty string stands for the absent key, which is only ever
read after the supervisor has written it. -/
structure GState where
  messages : List Msg
  query : String
  company_name : Option String
  access_token : Option String
  next : String
deriving DecidableEq, Repr

/-- A partial state update as returned by a node: a dictionary that may
contain the messages, access_token and next keys.  A none field is an
absent key. -/
structure Update where
  messages : List Msg := []
  access_token : Option String := none
  next : Option String := none
deriving DecidableEq, Repr

/-- Modelled from the spec: the merge-by-key semantics of the graph
library on a node result, as section 4.1 and the design notes describe it
for this State: the messages list appends (add_messages), the scalar keys
overwrite when present. -/
def merge (s : GState) (u : Update) : GState :=
  { s with
    messages := s.messages ++ u.messages
    access_token :=
      match u.access_token with
      | none => s.access_token
      | some t => some t
    next :=
      match u.next with
      | none => s.next
      | some n => n }

/-- The outcome of one call of the login tool as the node observes it:
either a structured response whose access_token field may be absent, or a
raised error. -/
inductive LoginOutcome where
  | success (access_token : Option String)
  | raises (msg : String)

/-- The collaborators outside the repository, gathered as oracles: whether
the registry holds a login tool, the console input, the login tool result
per attempt, the supervisor chain decision per call, the two react agents
as producers of the messages generated during one invocation, and the
report generator chain. -/
structure Env where
  hasLoginTool : Bool
  humanInput : Nat → String × String
  loginOutcome : Nat → LoginOutcome
  superDecision : Nat → String
  searchAgent : List Msg → List Msg
  mathAgent : List Msg → List Msg
  reportMsg : List Msg → Msg

/-- The sentinel label END that human_login_node writes into the next key
when the login tool is missing. -/
def endLabel : String := "__end__"

/-- The update of one human_login_node execution together with its
observable effects on the collaborators: whether the console was prompted
and whether the login tool was invoked. -/
structure LoginNodeOut where
  update : Update
  prompted : Bool
  loginCalled : Bool
deriving Repr

/-- Embedding of AgentService.human_login_node.  With a truthy stored
token it short-circuits without prompting.  Otherwise it prompts for
username and password first, then looks the login tool up in the registry,
and on a missing tool reports the fatal configuration error; with the tool
present the outcome of the attempt is either a response whose truthy
access_token is stored, a response without a truthy token (the login
failed diagnostic), or a raised error (the error diagnostic). -/
def human_login_node (env : Env) (attempt : Nat) (s : GState) :
    LoginNodeOut :=
  if truthy s.access_token then
    { update := { messages := [.ai "Access token already available."],
                  next := some "supervisor" },
      prompted := false, loginCalled := false }
  else if env.hasLoginTool = false then
    { update := { messages := [.ai "Error: Login tool not available."],
                  next := some endLabel },
      prompted := true, loginCalled := false }
  else
    match env.loginOutcome attempt with
    | .success tok =>
      if truthy tok then
        { update := { messages :=
                        [.ai "Successfully logged in and obtained access token."],
                      access_token := tok },
          prompted := true, loginCalled := true }
      else
        { update := { messages := [.ai "Login failed. Please try again."],
                      next := some "human_login" },
          prompted := true, loginCalled := true }
    | .raises m =>
      { update := { messages :=
                      [.ai ("Error during login: " ++ m ++ ". Please try again.")],
                    next := some "human_login" },
        prompted := true, loginCalled := true }

/-- Embedding of AgentService.supervisor_node: invoke the supervisor chain
and record its next attribute in the state, without validation. -/
def supervisor_node (env : Env) (call : Nat) : Update :=
  { next := some (env.superDecision call) }

/-- The system directive prepended by web_search_node.  Only its presence
and position matter to the claims; the directive text is the opening of
the prompt in the source. -/
def webSearchDirective : Msg :=
  .system "You are a web research specialist."

/-- The system directive prepended by math_node; as above, the opening of
the prompt in the source. -/
def mathDirective : Msg :=
  .system "You are a mathematical calculation specialist."

/-- Embedding of AgentService.web_search_node: prepend the directive to
the shared messages, run the react agent on that working transcript (the
agent extends its input transcript, per the add_messages channel of the
prebuilt react agent, so the result is the transcript followed by the
messages generated during the invocation), and return only the slice
beyond the input transcript. -/
def web_search_node (env : Env) (s : GState) : Update :=
  let messages_with_system := webSearchDirective :: s.messages
  let result := messages_with_system ++ env.searchAgent messages_with_system
  { messages := result.drop messages_with_system.length }

/-- Embedding of AgentService.math_node; same shape as web_search_node. -/
def math_node (env : Env) (s : GState) : Update :=
  let messages_with_system := mathDirective :: s.messages
  let result := messages_with_system ++ env.mathAgent messages_with_system
  { messages := result.drop messages_with_system.length }

/-- Embedding of AgentService.report_generator_node: invoke the report
chain on the conversation and append its single message. -/
def report_generator_node (env : Env) (s : GState) : Update :=
  { messages := [env.reportMsg s.messages] }

/-! ## agent-service: the graph wiring and the driver -/

/-- The named nodes added in _create_graph. -/
inductive Node where
  | human_login
  | supervisor
  | web_search
  | math
  | report_generator
deriving DecidableEq, Repr

/-- A run failure of the driver. -/
inductive RunError where
  | RecursionLimitExceeded
  | UnknownBranch (label : String)
deriving DecidableEq, Repr

/-- The edges of _create_graph.  Modelled from the spec for the library
semantics (section 4.1: the next node is the static edge target, or for
the supervisor the conditional edge evaluated on the recorded route); the
wiring itself is from the source: a static edge from human_login, from
web_search and from math to supervisor, the conditional edges out of
supervisor keyed on the next entry of the merged state over exactly the
three labels of the mapping, and the edge from report_generator to END
(returned as none).  A label outside the mapping is a branch failure. -/
def nextNode : Node → GState → Except RunError (Option Node)
  | .human_login, _ => .ok (some .supervisor)
  | .web_search, _ => .ok (some .supervisor)
  | .math, _ => .ok (some .supervisor)
  | .report_generator, _ => .ok none
  | .supervisor, s =>
    if s.next = "web_search" then .ok (some .web_search)
    else if s.next = "math" then .ok (some .math)
    else if s.next = "report_generator" then .ok (some .report_generator)
    else .error (.UnknownBranch s.next)

/-- The running configuration of the driver: the shared state, the number
of login attempts and supervisor calls so far (indices into the oracles),
and the list of nodes executed so far. -/
structure RunState where
  g : GState
  loginCalls : Nat
  superCalls : Nat
  trace : List Node

/-- Execute one node: compute its update, merge it into the shared state,
advance the oracle indices, and record the execution in the trace. -/
def execNode (env : Env) (n : Node) (rs : RunState) : RunState :=
  match n with
  | .human_login =>
    let o := human_login_node env rs.loginCalls rs.g
    { rs with g := merge rs.g o.update,
              loginCalls := rs.loginCalls + 1,
              trace := rs.trace ++ [n] }
  | .supervisor =>
    let u := supervisor_node env rs.superCalls
    { rs with g := merge rs.g u,
              superCalls := rs.superCalls + 1,
              trace := rs.trace ++ [n] }
  | .web_search =>
    { rs with g := merge rs.g (web_search_node env rs.g),
              trace := rs.trace ++ [n] }
  | .math =>
    { rs with g := merge rs.g (math_node env rs.g),
              trace := rs.trace ++ [n] }
  | .report_generator =>
    { rs with g := merge rs.g (report_generator_node env rs.g),
              trace := rs.trace ++ [n] }

/-- The outcome of a run: the final state or a failure, together with the
trace of the nodes that executed. -/
structure RunOutcome where
  result : Except RunError GState
  trace : List Node

/-- Modelled from the spec: the step loop of the graph library driver
(section 4.1): invoke the current node, merge, resolve the next node,
repeat, under a ceiling on the number of node executions; reaching the
ceiling with a node still pending fails with RecursionLimitExceeded
instead of executing it. -/
def runFrom (env : Env) : Nat → Node → RunState → RunOutcome
  | 0, _, rs => { result := .error .RecursionLimitExceeded, trace := rs.trace }
  | fuel + 1, n, rs =>
    let rs2 := execNode env n rs
    match nextNode n rs2.g with
    | .error e => { result := .error e, trace := rs2.trace }
    | .ok none => { result := .ok rs2.g, trace := rs2.trace }
    | .ok (some n2) => runFrom env fuel n2 rs2

/-- The initial state built in agent_invoke. -/
def initState (q : String) : GState :=
  { messages := [.human q], query := q, company_name := some "",
    access_token := none, next := "" }

/-- Embedding of AgentService.agent_invoke: run the compiled graph from
the entry point human_login on the initial state, under the recursion
limit of 15 passed in the source. -/
def agent_invoke (env : Env) (q : String) : RunOutcome :=
  runFrom env 15 .human_login
    { g := initState q, loginCalls := 0, superCalls := 0, trace := [] }

/-- The closed label set of the supervisor routing mapping. -/
def routeLabels : List String := ["web_search", "math", "report_generator"]

/-! ## Concrete environments and helpers -/

/-- An environment whose login tool always answers without an access_token
field, and whose supervisor immediately chooses the report generator. -/
def envLoginFail : Env :=
  { hasLoginTool := true
    humanInput := fun _ => ("user", "pass")
    loginOutcome := fun _ => .success none
    superDecision := fun _ => "report_generator"
    searchAgent := fun _ => []
    mathAgent := fun _ => []
    reportMsg := fun _ => .ai "final report" }

/-- The environment of envLoginFail with the login tool absent from the
registry. -/
def envNoLogin : Env := { envLoginFail with hasLoginTool := false }

/-- The environment of envLoginFail whose supervisor chain returns a label
outside the routing mapping. -/
def envBanana : Env := { envLoginFail with superDecision := fun _ => "banana" }

/-- The messages of the final state of a finished run. -/
def finalMessages (o : RunOutcome) : List Msg :=
  match o.result with
  | .ok g => g.messages
  | .error _ => []

/-- Whether a run finished without a failure. -/
def resultIsOk (o : RunOutcome) : Bool :=
  match o.result with
  | .ok _ => true
  | .error _ => false

/-- Executing a node appends exactly that node to the trace. -/
lemma execNode_trace (env : Env) (n : Node) (rs : RunState) :
    (execNode env n rs).trace = rs.trace ++ [n] := by
  cases n <;> rfl

/-- The driver executes at most fuel further nodes. -/
lemma runFrom_trace_length (env : Env) :
    ∀ (fuel : Nat) (n : Node) (rs : RunState),
      (runFrom env fuel n rs).trace.length ≤ rs.trace.length + fuel := by
  intro fuel
  induction fuel with
  | zero =>
    intro n rs
    simp [runFrom]
  | succ k ih =>
    intro n rs
    rw [runFrom]
    split
    · simp [execNode_trace]
    · simp [execNode_trace]
    · calc (runFrom env k _ (execNode env n rs)).trace.length
          ≤ (execNode env n rs).trace.length + k := ih _ _
        _ = rs.trace.length + 1 + k := by rw [execNode_trace]; simp
        _ ≤ rs.trace.length + (k + 1) := by omega

/-! ## Claims -/

/-- Claim C1, evaluated at a failing input.  The claim states that after a
failed login tool call the next node executed is the credential step
itself and never the Supervisor.  In the source the node does append the
diagnostic and writes human_login into the next key, but the graph has a
static edge from human_login to supervisor and no conditional edge from
human_login, so the node executed right after the failed login is the
supervisor: here the login tool answers without an access token and the
run proceeds human_login, supervisor, report_generator. -/
theorem c1_failed_login_next_node_is_supervisor :
    (agent_invoke envLoginFail "q").trace =
      [Node.human_login, Node.supervisor, Node.report_generator] ∧
    Msg.ai "Login failed. Please try again." ∈
      finalMessages (agent_invoke envLoginFail "q") := by
  decide

/-- Claim C2, evaluated at a failing input.  The claim states that with no
login tool in the registry the run terminates with a fatal configuration
failure and the Supervisor never executes.  In the source the node writes
the END sentinel into the next key, but the static edge from human_login
to supervisor routes on regardless: the supervisor executes and the run
finishes normally through the report generator. -/
theorem c2_missing_login_tool_still_runs_supervisor :
    (agent_invoke envNoLogin "q").trace =
      [Node.human_login, Node.supervisor, Node.report_generator] ∧
    resultIsOk (agent_invoke envNoLogin "q") = true ∧
    Msg.ai "Error: Login tool not available." ∈
      finalMessages (agent_invoke envNoLogin "q") := by
  decide

/-- Claim C3, counterexample.  The claim states that the decision recorded
in the next key is always a member of the closed label set.  The
supervisor node records the chain output without validation: with a chain
returning banana, the recorded decision is banana, which is not in the
set. -/
theorem c3_decision_recorded_unvalidated :
    (supervisor_node envBanana 0).next = some "banana" ∧
    "banana" ∉ routeLabels := by
  decide

/-- Claim C3 as amended: the supervisor records the chain decision in the
next key without validation, so an out-of-set value does get recorded;
such a value is still never used to select a worker node, because the
conditional-edge lookup on the merged state fails with the unknown-branch
error of the graph library rather than with a dedicated
InvalidRouteDecision rejection before recording. -/
theorem c3_out_of_set_label_fails_at_branch (env : Env) (call : Nat)
    (s : GState) (h : env.superDecision call ∉ routeLabels) :
    (supervisor_node env call).next = some (env.superDecision call) ∧
    nextNode .supervisor (merge s (supervisor_node env call)) =
      .error (.UnknownBranch (env.superDecision call)) := by
  have h2 := h
  simp only [routeLabels, List.mem_cons, List.mem_singleton, not_or,
    List.not_mem_nil] at h2
  obtain ⟨hw, hm, hr⟩ := h2
  refine ⟨rfl, ?_⟩
  simp [nextNode, merge, supervisor_node, hw, hm, hr]

/-- Witness for the amended Claim C3 at the concrete label banana. -/
theorem c3_out_of_set_witness :
    envBanana.superDecision 0 ∉ routeLabels ∧
    nextNode .supervisor (merge (initState "q") (supervisor_node envBanana 0)) =
      .error (.UnknownBranch "banana") := by
  have h : envBanana.superDecision 0 ∉ routeLabels := by decide
  exact ⟨h, (c3_out_of_set_label_fails_at_branch envBanana 0 (initState "q") h).2⟩

/-- Claim C4: for every tool name in the exempt arithmetic set and every
input, the wrapper never reads the stored credential and never attaches
bearer metadata: the call to the underlying tool is the unmodified input,
and is the same for any two credential values. -/
theorem c4_math_tools_ignore_credential (name : String)
    (h : name ∈ mathToolNames) (t1 t2 : Option String) (input : ToolInput) :
    wrap_authenticated_tool name t1 input = .invoked input ∧
    wrap_authenticated_tool name t1 input =
      wrap_authenticated_tool name t2 input := by
  simp [wrap_authenticated_tool, h]

/-- Witness for Claim C4 at the add tool, with and without a credential. -/
theorem c4_witness :
    wrap_authenticated_tool "add" (some "tok") ⟨[("a", "1"), ("b", "2")], none⟩ =
      .invoked ⟨[("a", "1"), ("b", "2")], none⟩ ∧
    wrap_authenticated_tool "add" (some "tok") ⟨[("a", "1"), ("b", "2")], none⟩ =
      wrap_authenticated_tool "add" none ⟨[("a", "1"), ("b", "2")], none⟩ :=
  c4_math_tools_ignore_credential "add" (by decide) (some "tok") none
    ⟨[("a", "1"), ("b", "2")], none⟩

/-- Claim C5: for every non-exempt tool name and every input, a falsy
credential makes the wrapper fail with the missing-credential error and
the underlying tool is reached zero times (the run result is the error for
every possible underlying tool); a set credential is attached as the
bearer Authorization header and the underlying tool is invoked on that
input, its own outcome returned unchanged. -/
theorem c5_auth_gate (name : String) (input : ToolInput)
    (h : name ∉ mathToolNames) :
    (wrap_authenticated_tool name none input =
        .failed "No access token available for tool call") ∧
    (∀ u : ToolInput → Except String String,
        wrap_run u name none input =
          .error "No access token available for tool call") ∧
    (∀ t : String, t ≠ "" →
        wrap_authenticated_tool name (some t) input =
          .invoked (withBearer input t) ∧
        ∀ u : ToolInput → Except String String,
          wrap_run u name (some t) input = u (withBearer input t)) := by
  refine ⟨by simp [wrap_authenticated_tool, h], ?_, ?_⟩
  · intro u
    simp [wrap_run, wrap_authenticated_tool, h]
  · intro t ht
    refine ⟨by simp [wrap_authenticated_tool, h, ht], ?_⟩
    intro u
    simp [wrap_run, wrap_authenticated_tool, h, ht]

/-- Witness for Claim C5 at the wiki_crawler tool. -/
theorem c5_witness :
    ("wiki_crawler" ∉ mathToolNames) ∧
    wrap_authenticated_tool "wiki_crawler" none
        ⟨[("company_name", "Apple")], none⟩ =
      .failed "No access token available for tool call" ∧
    wrap_authenticated_tool "wiki_crawler" (some "tok")
        ⟨[("company_name", "Apple")], none⟩ =
      .invoked ⟨[("company_name", "Apple")],
        some [("Authorization", "Bearer tok")]⟩ := by
  have hn : "wiki_crawler" ∉ mathToolNames := by decide
  have h := c5_auth_gate "wiki_crawler" ⟨[("company_name", "Apple")], none⟩ hn
  exact ⟨hn, h.1, (h.2.2 "tok" (by decide)).1⟩

/-- Claim C6: for every environment and query, the run executes at most 15
nodes, and a configuration whose budget is exhausted while a node is still
pending fails with RecursionLimitExceeded instead of executing that
node. -/
theorem c6_recursion_ceiling (env : Env) (q : String) :
    (agent_invoke env q).trace.length ≤ 15 ∧
    ∀ (n : Node) (rs : RunState),
      runFrom env 0 n rs =
        { result := .error .RecursionLimitExceeded, trace := rs.trace } := by
  refine ⟨?_, fun n rs => rfl⟩
  have h := runFrom_trace_length env 15 .human_login
    { g := initState q, loginCalls := 0, superCalls := 0, trace := [] }
  simpa [agent_invoke] using h

/-- Claim C7: for every state whose stored credential is set (truthy, as
the source tests it), the credential step prompts nobody, never invokes
the login tool, leaves the credential unchanged under the merge, records
the supervisor route, and the next node is the supervisor. -/
theorem c7_idempotent_reentry (env : Env) (attempt : Nat) (s : GState)
    (h : truthy s.access_token = true) :
    (human_login_node env attempt s).prompted = false ∧
    (human_login_node env attempt s).loginCalled = false ∧
    (human_login_node env attempt s).update.access_token = none ∧
    (merge s (human_login_node env attempt s).update).access_token =
      s.access_token ∧
    (human_login_node env attempt s).update.next = some "supervisor" ∧
    (human_login_node env attempt s).update.messages =
      [.ai "Access token already available."] ∧
    nextNode .human_login (merge s (human_login_node env attempt s).update) =
      .ok (some .supervisor) := by
  simp [human_login_node, h, merge, nextNode]

/-- Witness for Claim C7 at a state carrying a token. -/
theorem c7_witness :
    truthy ({ initState "q" with access_token := some "tok" } : GState).access_token
      = true ∧
    (human_login_node envLoginFail 0
        { initState "q" with access_token := some "tok" }).prompted = false := by
  have h : truthy
      ({ initState "q" with access_token := some "tok" } : GState).access_token
      = true := by decide
  exact ⟨h, (c7_idempotent_reentry envLoginFail 0 _ h).1⟩

/-- Claim C8: for every worker invocation, the messages handed back for
the merge are exactly the new suffix generated by the agent during that
invocation, and the merged shared state is the previous history followed
by that suffix: neither the injected system directive nor the prior
history is merged back. -/
theorem c8_worker_merges_only_new_suffix (env : Env) (s : GState) :
    (web_search_node env s).messages =
      env.searchAgent (webSearchDirective :: s.messages) ∧
    (math_node env s).messages =
      env.mathAgent (mathDirective :: s.messages) ∧
    (merge s (web_search_node env s)).messages =
      s.messages ++ env.searchAgent (webSearchDirective :: s.messages) ∧
    (merge s (math_node env s)).messages =
      s.messages ++ env.mathAgent (mathDirective :: s.messages) := by
  have h1 : (web_search_node env s).messages =
      env.searchAgent (webSearchDirective :: s.messages) := by
    simp [web_search_node]
  have h2 : (math_node env s).messages =
      env.mathAgent (mathDirective :: s.messages) := by
    simp [math_node]
  exact ⟨h1, h2, by simp [merge, h1], by simp [merge, h2]⟩

/-- Claim C9: division fails with the division error exactly on a zero
divisor and returns the quotient otherwise; dividing 10 by 2 gives 5. -/
theorem c9_divide_correct (a b : ℚ) :
    (b = 0 → CalculatorService.divide a b = .error "Cannot divide by zero.") ∧
    (b ≠ 0 → CalculatorService.divide a b = .ok (a / b)) ∧
    CalculatorService.divide 10 2 = .ok 5 := by
  refine ⟨fun h => by simp [CalculatorService.divide, h],
          fun h => by simp [CalculatorService.divide, h], ?_⟩
  norm_num [CalculatorService.divide]

/-- Witness for Claim C9 at both branches. -/
theorem c9_witness :
    CalculatorService.divide 10 0 = .error "Cannot divide by zero." ∧
    CalculatorService.divide 10 2 = .ok (10 / 2) :=
  ⟨(c9_divide_correct 10 0).1 rfl, (c9_divide_correct 10 2).2.1 (by norm_num)⟩

/-- Claim C10: every registered tool handler except login answers the 401
Token required error whenever the call carries no Authorization header
beginning with Bearer, for every auth validator and every underlying
service: in particular every arithmetic call without bearer metadata
fails, and the underlying service is never consulted. -/
theorem c10_tools_require_bearer (headers : Option mcp_server.Headers)
    (h : mcp_server.hasBearerAuth headers = false) :
    (∀ getCU svc a b,
      mcp_server.add getCU svc a b headers = .error ⟨401, "Token required"⟩) ∧
    (∀ getCU svc a b,
      mcp_server.subtract getCU svc a b headers =
        .error ⟨401, "Token required"⟩) ∧
    (∀ getCU svc a b,
      mcp_server.multiply getCU svc a b headers =
        .error ⟨401, "Token required"⟩) ∧
    (∀ getCU svc a b,
      mcp_server.divide getCU svc a b headers =
        .error ⟨401, "Token required"⟩) ∧
    (∀ getCU svc numbers,
      mcp_server.average getCU svc numbers headers =
        .error ⟨401, "Token required"⟩) ∧
    (∀ getCU svc cname,
      mcp_server.wiki_crawler getCU svc cname headers =
        .error ⟨401, "Token required"⟩) ∧
    (∀ getCU,
      mcp_server.logout getCU headers = .error ⟨401, "Token required"⟩) := by
  unfold mcp_server.hasBearerAuth at h
  cases ha : mcp_server.authHeaderOf headers with
  | none =>
    exact ⟨fun _ _ _ _ => by simp [mcp_server.add, ha],
           fun _ _ _ _ => by simp [mcp_server.subtract, ha],
           fun _ _ _ _ => by simp [mcp_server.multiply, ha],
           fun _ _ _ _ => by simp [mcp_server.divide, ha],
           fun _ _ _ => by simp [mcp_server.average, ha],
           fun _ _ _ => by simp [mcp_server.wiki_crawler, ha],
           fun _ => by simp [mcp_server.logout, ha]⟩
  | some hd =>
    rw [ha] at h
    have h2 : hd.startsWith "Bearer " = false := h
    exact ⟨fun _ _ _ _ => by simp [mcp_server.add, ha, h2],
           fun _ _ _ _ => by simp [mcp_server.subtract, ha, h2],
           fun _ _ _ _ => by simp [mcp_server.multiply, ha, h2],
           fun _ _ _ _ => by simp [mcp_server.divide, ha, h2],
           fun _ _ _ => by simp [mcp_server.average, ha, h2],
           fun _ _ _ => by simp [mcp_server.wiki_crawler, ha, h2],
           fun _ => by simp [mcp_server.logout, ha, h2]⟩

/-- Witness for Claim C10 at absent headers. -/
theorem c10_witness :
    mcp_server.hasBearerAuth none = false ∧
    mcp_server.add (fun _ => .ok ⟨"testuser"⟩) (fun a b => a + b) 1 2 none =
      .error ⟨401, "Token required"⟩ ∧
    mcp_server.average (fun _ => .ok ⟨"testuser"⟩) CalculatorService.Average
        [1, 2] none =
      .error ⟨401, "Token required"⟩ := by
  have h : mcp_server.hasBearerAuth none = false := rfl
  have H := c10_tools_require_bearer none h
  exact ⟨h, H.1 _ _ 1 2, H.2.2.2.2.1 _ _ [1, 2]⟩
